import Mathlib

/-!
Verification of the call-center query agent against its specification.

The development shallowly embeds the Python sources:
  * `src/src/tools/sql_tools.py` — `validate_sql` and `run_sql_query`;
  * `src/main.py` — the `query` retry/backoff loop;
  * `src/app.py` — the `/query` HTTP endpoint.

Strings are modelled as Lean `String` (a list of characters); the Python
string operations used by the code (`upper`, `lower`, `strip`, `rstrip(";")`,
`startswith`, substring `in`, `re.sub`, `re.findall`, `join`) are embedded as
executable functions below.  The embeddings are exact for ASCII text, which is
the character range the queries and keyword lists use.

External collaborators (the sqlite store, the LLM stages, the HTTP framework)
are modelled as function parameters, never stubbed to constants inside the
embedded code.
-/

deriving instance DecidableEq for Except

/-- The single-quote character `'` (code 39), used by the literal stripper. -/
def squote : Char := Char.ofNat 39

/-- Python `str.isspace` characters relevant to `strip()` / regex `\s`
(ASCII: space, tab, newline, vertical tab, form feed, carriage return). -/
def isPySpace (c : Char) : Bool :=
  c = Char.ofNat 32 || c = Char.ofNat 9 || c = Char.ofNat 10 ||
  c = Char.ofNat 11 || c = Char.ofNat 12 || c = Char.ofNat 13

/-- Python `str.upper()` on ASCII text (character-wise). -/
def pyUpperC (l : List Char) : List Char := l.map Char.toUpper

/-- Python `str.lower()` on ASCII text (character-wise). -/
def pyLowerC (l : List Char) : List Char := l.map Char.toLower

/-- Python `str.strip()`: drop whitespace from both ends. -/
def pyStripC (l : List Char) : List Char :=
  ((l.dropWhile isPySpace).reverse.dropWhile isPySpace).reverse

/-- Python `str.rstrip(";")`: drop trailing semicolons. -/
def rstripSemiC (l : List Char) : List Char :=
  (l.reverse.dropWhile (fun c => c = Char.ofNat 59)).reverse

/-- Substring test: `needle.isSubOf hay` is Python `needle in hay`. -/
def isSubOf (needle : List Char) : List Char → Bool
  | [] => needle.isEmpty
  | c :: rest => needle.isPrefixOf (c :: rest) || isSubOf needle rest

/-- Python `needle in hay` for `String`s. -/
def strContains (hay needle : String) : Bool := isSubOf needle.data hay.data

/-- `re.sub(r"'[^']*'", "", sql)`: remove every single-quoted literal,
scanning left to right.  `buf = some acc` means we are inside a candidate
literal whose characters (in reverse, opening quote included) are `acc`;
an unterminated final quote is emitted unchanged, as the regex leaves it. -/
def stripLitGo : List Char → Option (List Char) → List Char
  | [], none => []
  | [], some buf => buf.reverse
  | c :: rest, none =>
    if c = squote then stripLitGo rest (some [c]) else c :: stripLitGo rest none
  | c :: rest, some buf =>
    if c = squote then stripLitGo rest none else stripLitGo rest (some (c :: buf))

/-- `re.sub(r"'[^']*'", "", sql)` over a character list. -/
def removeLiterals (l : List Char) : List Char := stripLitGo l none

/-- Regex `\w` (ASCII): letters, digits, underscore. -/
def isWordChar (c : Char) : Bool := c.isAlpha || c.isDigit || c = Char.ofNat 95

/-- One attempted match of `\b(?:FROM|JOIN)\s+(\w+)` (IGNORECASE) at the
current position.  `prevWord` says whether the previous character is a word
character (`\b` fails in that case, since the pattern starts with a letter).
On success, returns the captured table name and the rest of the input after
the capture. -/
def tryFromJoin (prevWord : Bool) (l : List Char) : Option (String × List Char) :=
  if prevWord then none
  else if pyUpperC (l.take 4) = "FROM".data || pyUpperC (l.take 4) = "JOIN".data then
    let rest4 := l.drop 4
    let spaces := rest4.takeWhile isPySpace
    if spaces.isEmpty then none
    else
      let afterSp := rest4.dropWhile isPySpace
      let word := afterSp.takeWhile isWordChar
      if word.isEmpty then none
      else some (String.mk word, afterSp.drop word.length)
  else none

/-- `re.findall(r'\b(?:FROM|JOIN)\s+(\w+)', sql, re.IGNORECASE)`: scan left to
right, collecting non-overlapping matches.  The fuel argument bounds the scan
by the input length (each step consumes at least one character). -/
def scanTables : Nat → Bool → List Char → List String
  | 0, _, _ => []
  | _ + 1, _, [] => []
  | fuel + 1, prevWord, c :: rest =>
    match tryFromJoin prevWord (c :: rest) with
    | some (tbl, rest') => tbl :: scanTables fuel true rest'
    | none => scanTables fuel (isWordChar c) rest

/-- The tables referenced after a `FROM`/`JOIN` clause of `sql`. -/
def foundTables (sql : String) : List String := scanTables sql.data.length false sql.data

/-- `sql.upper().strip()` — the text the prefix and keyword checks run on. -/
def sqlUpperOf (sql : String) : List Char := pyStripC (pyUpperC sql.data)

/-- The `dangerous` keyword list of `validate_sql`, in source order. -/
def dangerousKeywords : List String :=
  ["INSERT", "UPDATE", "DELETE", "DROP", "CREATE", "ALTER",
   "TRUNCATE", "EXEC", "--", ";--"]

/-- `String.mk (pyLowerC s.data)` — Python `s.lower()`. -/
def lowerStr (s : String) : String := String.mk (pyLowerC s.data)

/-- `valid_tables = [t.lower() for t in schema.keys()]`. -/
def validTables (schemaTables : List String) : List String := schemaTables.map lowerStr

/-- The loop condition `table.lower() not in valid_tables`. -/
def isUnknownTable (schemaTables : List String) (t : String) : Bool :=
  !((validTables schemaTables).contains (lowerStr t))

/-- `validate_sql` from `src/src/tools/sql_tools.py`.  The schema is passed
as the list of table names (`get_schema().keys()`), the only part the
validator reads; the sqlite-backed schema itself is an external collaborator.
Returns the `(is_valid, message)` pair of the source. -/
def validate_sql (schemaTables : List String) (sql : String) : Bool × String :=
  let sql_upper := sqlUpperOf sql
  if ("SELECT".data.isPrefixOf sql_upper) = false then
    (false, "Only SELECT queries allowed")
  else
    match dangerousKeywords.find? (fun kw => isSubOf kw.data sql_upper) with
    | some kw => (false, "Blocked keyword: " ++ kw)
    | none =>
      let sql_no_strings := removeLiterals sql.data
      if isSubOf ";".data (rstripSemiC (pyStripC sql_no_strings)) then
        (false, "Multiple statements not allowed")
      else
        match (foundTables sql).find? (isUnknownTable schemaTables) with
        | some t => (false, "Unknown table: " ++ t)
        | none => (true, "Valid")

/-- Python `sep.join(parts)`. -/
def pyJoin (sep : String) : List String → String
  | [] => ""
  | [a] => a
  | a :: b :: t => a ++ sep ++ pyJoin sep (b :: t)

/-- One result cell: `str(v) if v is not None else "NULL"`.  A cell is
`some s` when the store returned a non-null value whose `str()` is `s`. -/
def renderCell (v : Option String) : String := v.getD "NULL"

/-- One preview row: `" | ".join(str(v) if v is not None else "NULL" ...)`. -/
def renderRow (r : List (Option String)) : String := pyJoin " | " (r.map renderCell)

/-- The at-most-50 preview rows (`for row in rows[:50]`). -/
def previewLines (rows : List (List (Option String))) : List String :=
  (rows.take 50).map renderRow

/-- The list `result` of output lines built by `run_sql_query` for a
nonempty row set, in source order: header, dashes, preview rows, optional
excess-count marker, trailing total. -/
def resultLines (headers : List String) (rows : List (List (Option String))) : List String :=
  let headerLine := pyJoin " | " headers
  [headerLine, String.mk (List.replicate headerLine.length (Char.ofNat 45))] ++
    previewLines rows ++
    (if 50 < rows.length then
      ["... and " ++ toString (rows.length - 50) ++ " more rows"] else []) ++
    ["\nTotal: " ++ toString rows.length ++ " row(s)"]

/-- The formatted result text of `run_sql_query` after a successful
execution: the zero-row marker, or `"\n".join(result)`. -/
def formatResult (headers : List String) (rows : List (List (Option String))) : String :=
  if rows.isEmpty then "No results found." else pyJoin "\n" (resultLines headers rows)

/-- `run_sql_query` from `src/src/tools/sql_tools.py`.  `execFn` is the
external `execute_sql`: `.ok (headers, rows)` a normal return, `.error e` an
exception whose `str()` is `e`.  Logging calls are effect-free and omitted. -/
def run_sql_query (schemaTables : List String)
    (execFn : String → Except String (List String × List (List (Option String))))
    (sql_query : String) : String :=
  let v := validate_sql schemaTables sql_query
  if v.1 = false then "ERROR: " ++ v.2
  else
    match execFn sql_query with
    | Except.ok (headers, rows) => formatResult headers rows
    | Except.error e => "ERROR: " ++ e

/-- `run_sql_query` instrumented with the list of query strings actually
handed to `execute_sql`, to state the no-execution-without-validation
invariant.  The first component equals `run_sql_query`. -/
def run_sql_query_trace (schemaTables : List String)
    (execFn : String → Except String (List String × List (List (Option String))))
    (sql_query : String) : String × List String :=
  let v := validate_sql schemaTables sql_query
  if v.1 = false then ("ERROR: " ++ v.2, [])
  else
    match execFn sql_query with
    | Except.ok (headers, rows) => (formatResult headers rows, [sql_query])
    | Except.error e => ("ERROR: " ++ e, [sql_query])

/-! ## `src/main.py` — the `query` retry/backoff loop

The two LLM stages are external collaborators, modelled as functions:
`sqlStage n` is the outcome of `Runner.run(sql_agent, question)` on attempt
`n` (`.ok fo` a normal return whose `final_output` is `fo`, `.error e` a
raised exception whose `str()` is `e`), and `evalStage p` the outcome of
`Runner.run(evaluator, p)` on prompt `p`.  Backoff sleeps are recorded as the
list of waited durations (`asyncio.sleep(wait_time)` is the only effect). -/

/-- The evaluation prompt f-string built by `query` in `src/main.py`. -/
def evalPrompt (question output : String) : String :=
  "Original question: " ++ question ++ "\n\nSQL Agent results:\n" ++ output ++
  "\n\nEvaluate these results and provide a clear answer to the user\x27s question.\nIf results are empty or seem wrong, explain what happened."

/-- The body of one `try:` block of the attempt loop: run the SQL agent,
raise `SQL Error: <output>` when the output carries the `"ERROR:"` marker and
attempts remain, otherwise run the evaluator and return its final output. -/
def attemptStep (sqlStage : Nat → Except String (Option String))
    (evalStage : String → Except String (Option String))
    (question : String) (maxRetries attempt : Nat) : Except String (Option String) :=
  match sqlStage attempt with
  | Except.error e => Except.error e
  | Except.ok fo =>
    let output := fo.getD ""
    if strContains output "ERROR:" = true ∧ attempt < maxRetries then
      Except.error ("SQL Error: " ++ output)
    else
      match evalStage (evalPrompt question output) with
      | Except.error e => Except.error e
      | Except.ok ans => Except.ok ans

/-- The `for attempt in range(max_retries + 1)` loop of `query`.  The fuel is
the number of loop iterations left (`maxRetries + 1` at the start), so fuel 0
is the unreachable fall-through end of the loop.  The second component is the
list of backoff waits performed, in order. -/
def queryGo (sqlStage : Nat → Except String (Option String))
    (evalStage : String → Except String (Option String))
    (question : String) (maxRetries : Nat) :
    Nat → Nat → Except String (Option String) × List Nat
  | _, 0 => (Except.error "loop fell through", [])
  | attempt, fuel + 1 =>
    match attemptStep sqlStage evalStage question maxRetries attempt with
    | Except.ok ans => (Except.ok ans, [])
    | Except.error e =>
      if attempt < maxRetries then
        ((queryGo sqlStage evalStage question maxRetries (attempt + 1) fuel).1,
         (attempt + 1) * 2 ::
           (queryGo sqlStage evalStage question maxRetries (attempt + 1) fuel).2)
      else
        (Except.error ("Query failed after " ++ toString (maxRetries + 1) ++
           " attempts: " ++ e), [])

/-- `query(question, max_retries)` from `src/main.py`: result and the list of
backoff waits.  `.ok a` is a normal return of `eval_result.final_output`;
`.error e` is the exception raised after exhausting the attempts. -/
def mainQuery (sqlStage : Nat → Except String (Option String))
    (evalStage : String → Except String (Option String))
    (question : String) (maxRetries : Nat) : Except String (Option String) × List Nat :=
  queryGo sqlStage evalStage question maxRetries 0 (maxRetries + 1)

/-! ## `src/app.py` — the `/query` endpoint -/

/-- The request body of `POST /query`. -/
structure QueryRequest where
  question : String
  session_id : Option String
deriving DecidableEq, Repr

/-- The `QueryResponse` model of `src/app.py`. -/
structure QueryResponse where
  question : String
  answer : Option String
  session_id : String
  success : Bool
deriving DecidableEq, Repr

/-- A raised `HTTPException(status_code, detail)`. -/
structure HTTPError where
  status_code : Nat
  detail : String
deriving DecidableEq, Repr

/-- `request.session_id or str(uuid.uuid4())`: Python `or` replaces both a
missing and an empty identifier by the freshly minted one. -/
def resolveSession (freshId : String) (supplied : Option String) : String :=
  match supplied with
  | none => freshId
  | some s => if s = "" then freshId else s

/-- The `query` endpoint of `src/app.py`.  `pipeline q sid` is the outcome of
the whole `try:` body after the session resolution (both `Runner.run` calls
with the session): `.ok ans` the evaluator's final output, `.error e` an
exception whose `str()` is `e`.  `freshId` is the minted `uuid4` value. -/
def appQuery (pipeline : String → String → Except String (Option String))
    (freshId : String) (req : QueryRequest) : Except HTTPError QueryResponse :=
  let session_id := resolveSession freshId req.session_id
  match pipeline req.question session_id with
  | Except.ok ans => Except.ok ⟨req.question, ans, session_id, true⟩
  | Except.error e => Except.error ⟨500, e⟩

/-! ## Concrete collaborator instances used by witnesses and counterexamples -/

/-- A stand-in for `execute_sql` that would fail if it were ever reached. -/
def execNever : String → Except String (List String × List (List (Option String))) :=
  fun _ => Except.error "store must not be reached"

/-- A store that rejects every query with a column error. -/
def execBadColumn : String → Except String (List String × List (List (Option String))) :=
  fun _ => Except.error "no such column: x"

/-- A store returning 53 one-column rows for every query. -/
def execRows53 : String → Except String (List String × List (List (Option String))) :=
  fun _ => Except.ok (["total"], List.replicate 53 [some "7"])

/-- A generation stage erring twice then answering `total 50005`. -/
def sqlTwoErrs : Nat → Except String (Option String) :=
  fun n => if n = 2 then Except.ok (some "total 50005") else Except.ok (some "ERROR: bad column")

/-- An evaluator answering with a fixed summary. -/
def evalFixed : String → Except String (Option String) :=
  fun _ => Except.ok (some "There are 50005 calls.")

/-- A generation stage whose final output carries `"ERROR:"` on every attempt. -/
def sqlAlwaysErr : Nat → Except String (Option String) :=
  fun _ => Except.ok (some "ERROR: no such table")

/-- An evaluator that turns whatever it is given into a prose answer. -/
def evalExplains : String → Except String (Option String) :=
  fun _ => Except.ok (some "The query kept failing; no data is available.")

/-- A generation stage erring textually twice, then raising on attempt 2. -/
def sqlRaisesLast : Nat → Except String (Option String) :=
  fun n => if n = 2 then Except.error "connection lost"
           else Except.ok (some "ERROR: no such table")

/-- A pipeline body that raises with a session-free, question-free detail. -/
def pipeFails : String → String → Except String (Option String) :=
  fun _ _ => Except.error "boom"

/-- A pipeline body that answers every question. -/
def pipeAnswers : String → String → Except String (Option String) :=
  fun _ _ => Except.ok (some "42 calls")

/-! ## Helper lemmas -/

theorem infix_of_pre {α : Type} {l m : List α} (h : l <+: m) : l <:+: m := by
  obtain ⟨t, ht⟩ := h
  exact ⟨[], t, by simpa using ht⟩

theorem infix_of_suf {α : Type} {l m : List α} (h : l <:+ m) : l <:+: m := by
  obtain ⟨s, hs⟩ := h
  exact ⟨s, [], by simpa using hs⟩

theorem isSubOf_iff {needle hay : List Char} : isSubOf needle hay = true ↔ needle <:+: hay := by
  induction hay with
  | nil =>
    simp [isSubOf, List.isEmpty_iff]
  | cons c rest ih =>
    simp only [isSubOf, Bool.or_eq_true, ih, List.infix_cons_iff,
      List.isPrefixOf_iff_prefix]

theorem strContains_iff {hay needle : String} :
    strContains hay needle = true ↔ needle.data <:+: hay.data := by
  simp [strContains, isSubOf_iff]

theorem mem_pyJoin_sub (sep : String) {L : List String} {s : String} (h : s ∈ L) :
    s.data <:+: (pyJoin sep L).data := by
  induction L with
  | nil => simp at h
  | cons a t ih =>
    cases t with
    | nil =>
      simp only [List.mem_singleton] at h
      subst h
      exact List.infix_refl s.data
    | cons b u =>
      rcases List.mem_cons.mp h with h1 | h2
      · subst h1
        refine infix_of_pre ?_
        refine ⟨(sep ++ pyJoin sep (b :: u)).data, ?_⟩
        simp [pyJoin, String.data_append]
      · have hrest := ih h2
        refine List.IsInfix.trans hrest (infix_of_suf ?_)
        refine ⟨(a ++ sep).data, ?_⟩
        simp [pyJoin, String.data_append]

theorem strContains_of_mem_lines {L : List String} {line sub : String}
    (hmem : line ∈ L) (hsub : sub.data <:+: line.data) :
    strContains (pyJoin "\n" L) sub = true := by
  exact strContains_iff.mpr (List.IsInfix.trans hsub (mem_pyJoin_sub "\n" hmem))

/-! ## Claim theorems -/

/-- C1: for every input string passed to `run_sql_query`, `execute_sql` is
invoked only if `validate_sql` has first returned accepted for that exact
string; when `validate_sql` rejects, `run_sql_query` returns
`"ERROR: <reason>"` and performs no execution against the store. -/
theorem C1_execute_only_after_validation (schemaTables : List String)
    (execFn : String → Except String (List String × List (List (Option String))))
    (q : String) :
    (∀ q2 ∈ (run_sql_query_trace schemaTables execFn q).2,
        q2 = q ∧ (validate_sql schemaTables q2).1 = true)
    ∧ ((validate_sql schemaTables q).1 = false →
        run_sql_query_trace schemaTables execFn q
          = ("ERROR: " ++ (validate_sql schemaTables q).2, []))
    ∧ run_sql_query schemaTables execFn q = (run_sql_query_trace schemaTables execFn q).1 := by
  by_cases hv : (validate_sql schemaTables q).1 = false
  · simp [run_sql_query, run_sql_query_trace, hv]
  · rw [Bool.not_eq_false] at hv
    refine ⟨?_, ?_, ?_⟩
    · intro q2 hq2
      simp only [run_sql_query_trace, hv] at hq2
      cases hx : execFn q with
      | ok pr =>
        rw [hx] at hq2
        cases pr with
        | mk headers rows =>
          simp at hq2
          exact ⟨hq2, hq2 ▸ hv⟩
      | error e =>
        rw [hx] at hq2
        simp at hq2
        exact ⟨hq2, hq2 ▸ hv⟩
    · intro hfalse
      rw [hv] at hfalse
      exact absurd hfalse (by simp)
    · cases hx : execFn q with
      | ok pr =>
        cases pr with
        | mk headers rows => simp [run_sql_query, run_sql_query_trace, hv, hx]
      | error e => simp [run_sql_query, run_sql_query_trace, hv, hx]

/-- Witness for C1 at a rejected input: a non-SELECT statement is answered
with the validator's reason and the store sees no query. -/
theorem C1_execute_only_after_validation_witness :
    run_sql_query_trace ["calls"] execNever "DROP TABLE calls"
      = ("ERROR: Only SELECT queries allowed", []) := by
  have h := (C1_execute_only_after_validation ["calls"] execNever "DROP TABLE calls").2.1
    (by decide)
  exact h.trans (by decide)

/-- C6: for every query string that passes validation, if `execute_sql`
raises any exception, `run_sql_query` catches it and returns
`"ERROR: <detail>"` instead of propagating the exception. -/
theorem C6_execution_error_surfaced_as_text (schemaTables : List String)
    (execFn : String → Except String (List String × List (List (Option String))))
    (q e : String)
    (hv : (validate_sql schemaTables q).1 = true)
    (he : execFn q = Except.error e) :
    run_sql_query schemaTables execFn q = "ERROR: " ++ e := by
  simp [run_sql_query, hv, he]

/-- Witness for C6: a validated query whose execution raises is answered
with the textual error. -/
theorem C6_execution_error_surfaced_as_text_witness :
    run_sql_query ["calls"] execBadColumn "SELECT x FROM calls"
      = "ERROR: no such column: x" := by
  have h := C6_execution_error_surfaced_as_text ["calls"] execBadColumn
    "SELECT x FROM calls" "no such column: x" (by decide) rfl
  exact h.trans (by decide)

/-- C5: for every executed query, at most 50 rows are rendered in the
preview (all of them when there are at most 50); a row count above 50 makes
the output contain the `"... and N more rows"` marker with the excess count
and the true total `"Total: N row(s)"`; a zero-row result yields the
distinct `"No results found."` marker. -/
theorem C5_preview_bounded_and_marked (schemaTables : List String)
    (execFn : String → Except String (List String × List (List (Option String))))
    (q : String) (headers : List String) (rows : List (List (Option String)))
    (hv : (validate_sql schemaTables q).1 = true)
    (he : execFn q = Except.ok (headers, rows)) :
    (rows = [] → run_sql_query schemaTables execFn q = "No results found.")
    ∧ (previewLines rows).length ≤ 50
    ∧ (rows.length ≤ 50 → previewLines rows = rows.map renderRow)
    ∧ (50 < rows.length →
        strContains (run_sql_query schemaTables execFn q)
          ("... and " ++ toString (rows.length - 50) ++ " more rows") = true
        ∧ strContains (run_sql_query schemaTables execFn q)
          ("Total: " ++ toString rows.length ++ " row(s)") = true) := by
  have hrun : run_sql_query schemaTables execFn q = formatResult headers rows := by
    simp [run_sql_query, hv, he]
  refine ⟨?_, ?_, ?_, ?_⟩
  · intro hnil
    subst hnil
    simp [hrun, formatResult]
  · simp [previewLines]
  · intro hle
    simp [previewLines, List.take_of_length_le hle]
  · intro h50
    have hne : rows ≠ [] := by
      intro hnil
      subst hnil
      simp at h50
    have hjoin : run_sql_query schemaTables execFn q
        = pyJoin "\n" (resultLines headers rows) := by
      simp [hrun, formatResult, hne]
    constructor
    · rw [hjoin]
      refine strContains_of_mem_lines ?_ (List.infix_refl _)
      show ("... and " ++ toString (rows.length - 50) ++ " more rows") ∈ resultLines headers rows
      simp [resultLines, if_pos h50]
    · have hkey : ("\nTotal: " : String).data
          = Char.ofNat 10 :: ("Total: " : String).data := by decide
      have hdata : ("\nTotal: " ++ toString rows.length ++ " row(s)").data
          = Char.ofNat 10 :: ("Total: " ++ toString rows.length ++ " row(s)").data := by
        simp [String.data_append, hkey]
      rw [hjoin]
      refine strContains_of_mem_lines ?_ (infix_of_suf ⟨[Char.ofNat 10], hdata.symm⟩)
      show ("\nTotal: " ++ toString rows.length ++ " row(s)") ∈ resultLines headers rows
      simp [resultLines]

/-- Witness for C5 at a 53-row result: the excess marker and the true total
appear in the output. -/
theorem C5_preview_bounded_and_marked_witness :
    strContains (run_sql_query ["calls"] execRows53 "SELECT total FROM calls")
      ("... and " ++ toString ((List.replicate 53 ([some "7"] : List (Option String))).length - 50) ++ " more rows") = true
    ∧ strContains (run_sql_query ["calls"] execRows53 "SELECT total FROM calls")
      ("Total: " ++ toString (List.replicate 53 ([some "7"] : List (Option String))).length ++ " row(s)") = true := by
  exact (C5_preview_bounded_and_marked ["calls"] execRows53 "SELECT total FROM calls"
    ["total"] (List.replicate 53 [some "7"]) (by decide) rfl).2.2.2 (by decide)

/-- C2 counterexample: in `SELECT * FROM calls WHERE note = 'drop'` the
keyword `drop` occurs only inside the single-quoted literal (the second
conjunct: the literal-stripped text carries no `DROP`), yet `validate_sql`
rejects on account of that keyword — the scan runs on the raw uppercased
text, so literal contents are NOT stripped before it. -/
theorem C2_counterexample :
    validate_sql ["calls", "employees"]
        "SELECT * FROM calls WHERE note = \x27drop\x27"
      = (false, "Blocked keyword: DROP")
    ∧ isSubOf "DROP".data
        (pyUpperC (removeLiterals "SELECT * FROM calls WHERE note = \x27drop\x27".data))
      = false := by
  decide

/-- C2 (amended): the keyword scan of `validate_sql` runs on the raw
uppercased trimmed text with string literals still in place, so a blocked
keyword is rejected wherever it occurs — outside or inside a quoted literal
(stripping happens only later, for the multiple-statement check). -/
theorem C2_amended_keyword_scan_unstripped (schemaTables : List String) (sql kw : String)
    (hkw : kw ∈ dangerousKeywords)
    (hin : isSubOf kw.data (sqlUpperOf sql) = true) :
    (validate_sql schemaTables sql).1 = false := by
  by_cases hsel : ("SELECT".data.isPrefixOf (sqlUpperOf sql)) = false
  · simp [validate_sql, hsel]
  · cases hfind : dangerousKeywords.find? (fun kw2 => isSubOf kw2.data (sqlUpperOf sql)) with
    | some kw2 => simp [validate_sql, hsel, hfind]
    | none =>
      exfalso
      rw [List.find?_eq_none] at hfind
      exact absurd hin (by simpa using hfind kw hkw)

/-- Witness for the amended C2 at the counterexample input: the in-literal
keyword alone makes validation fail. -/
theorem C2_amended_keyword_scan_unstripped_witness :
    (validate_sql ["calls", "employees"]
        "SELECT * FROM calls WHERE note = \x27drop\x27").1 = false :=
  C2_amended_keyword_scan_unstripped ["calls", "employees"]
    "SELECT * FROM calls WHERE note = \x27drop\x27" "DROP" (by decide) (by decide)

/-- Shared helper: any blocked keyword occurring in `sql.upper().strip()`
makes `validate_sql` reject (either at the SELECT-prefix check or at the
keyword scan). -/
theorem validate_rejects_of_keyword (schemaTables : List String) (sql kw : String)
    (hkw : kw ∈ dangerousKeywords)
    (hin : isSubOf kw.data (sqlUpperOf sql) = true) :
    (validate_sql schemaTables sql).1 = false := by
  by_cases hsel : ("SELECT".data.isPrefixOf (sqlUpperOf sql)) = false
  · simp [validate_sql, hsel]
  · cases hfind : dangerousKeywords.find? (fun kw2 => isSubOf kw2.data (sqlUpperOf sql)) with
    | some kw2 => simp [validate_sql, hsel, hfind]
    | none =>
      exfalso
      rw [List.find?_eq_none] at hfind
      exact absurd hin (by simpa using hfind kw hkw)

/-- C10 counterexample: `DROP TABLE employees` contains the blocked keyword
`DROP` in its uppercased text, but the reported reason is the SELECT-prefix
one, not `"Blocked keyword: DROP"` — the keyword reason needs the
SELECT-prefix check to pass first. -/
theorem C10_counterexample :
    isSubOf "DROP".data (sqlUpperOf "DROP TABLE employees") = true
    ∧ validate_sql ["calls", "employees"] "DROP TABLE employees"
        = (false, "Only SELECT queries allowed")
    ∧ (validate_sql ["calls", "employees"] "DROP TABLE employees").2
        ≠ "Blocked keyword: DROP" := by
  decide

/-- C10 (amended): any query whose uppercased trimmed text contains a
blocked-keyword substring anywhere (identifiers included) is rejected; when
that text also begins with `SELECT`, the reason is `"Blocked keyword: <kw>"`
for a blocked keyword actually contained in the text; and acceptance
guarantees the absence of every one of these substrings. -/
theorem C10_amended_substring_scan (schemaTables : List String) (sql : String) :
    ((∃ kw ∈ dangerousKeywords, isSubOf kw.data (sqlUpperOf sql) = true) →
        (validate_sql schemaTables sql).1 = false)
    ∧ ("SELECT".data.isPrefixOf (sqlUpperOf sql) = true →
        (∃ kw ∈ dangerousKeywords, isSubOf kw.data (sqlUpperOf sql) = true) →
        ∃ kw ∈ dangerousKeywords, (isSubOf kw.data (sqlUpperOf sql) = true
          ∧ validate_sql schemaTables sql = (false, "Blocked keyword: " ++ kw)))
    ∧ ((validate_sql schemaTables sql).1 = true →
        ∀ kw ∈ dangerousKeywords, isSubOf kw.data (sqlUpperOf sql) = false) := by
  refine ⟨?_, ?_, ?_⟩
  · intro hex
    obtain ⟨kw, hkw, hin⟩ := hex
    exact validate_rejects_of_keyword schemaTables sql kw hkw hin
  · intro hsel hex
    cases hfind : dangerousKeywords.find? (fun kw2 => isSubOf kw2.data (sqlUpperOf sql)) with
    | some kw0 =>
      refine ⟨kw0, List.mem_of_find?_eq_some hfind, ?_, ?_⟩
      · simpa using List.find?_some hfind
      · simp [validate_sql, hsel, hfind]
    | none =>
      exfalso
      obtain ⟨kw, hkw, hin⟩ := hex
      rw [List.find?_eq_none] at hfind
      exact absurd hin (by simpa using hfind kw hkw)
  · intro hvalid kw hkw
    by_cases hsel : ("SELECT".data.isPrefixOf (sqlUpperOf sql)) = false
    · exfalso
      simp [validate_sql, hsel] at hvalid
    · cases hfind : dangerousKeywords.find? (fun kw2 => isSubOf kw2.data (sqlUpperOf sql)) with
      | some kw2 =>
        exfalso
        simp [validate_sql, hsel, hfind] at hvalid
      | none =>
        rw [List.find?_eq_none] at hfind
        simpa using hfind kw hkw

/-- Witness for the amended C10: `created_at` inside a column identifier
triggers `"Blocked keyword: CREATE"`. -/
theorem C10_amended_substring_scan_witness :
    ∃ kw ∈ dangerousKeywords,
      (isSubOf kw.data (sqlUpperOf "SELECT created_at FROM calls") = true
        ∧ validate_sql ["calls", "employees"] "SELECT created_at FROM calls"
            = (false, "Blocked keyword: " ++ kw)) :=
  (C10_amended_substring_scan ["calls", "employees"] "SELECT created_at FROM calls").2.1
    (by decide) ⟨"CREATE", by decide, by decide⟩

/-- C7: when the prefix and keyword checks pass, a statement-separator `;`
left after stripping single-quoted literals and the trailing terminator is
rejected as `"Multiple statements not allowed"`; with no residual `;` (one
only inside a literal or only trailing), validation never produces that
rejection — it proceeds to the table check. -/
theorem C7_residual_semicolon_rejected (schemaTables : List String) (sql : String)
    (h1 : "SELECT".data.isPrefixOf (sqlUpperOf sql) = true)
    (h2 : ∀ kw ∈ dangerousKeywords, isSubOf kw.data (sqlUpperOf sql) = false) :
    (isSubOf ";".data (rstripSemiC (pyStripC (removeLiterals sql.data))) = true →
        validate_sql schemaTables sql = (false, "Multiple statements not allowed"))
    ∧ (isSubOf ";".data (rstripSemiC (pyStripC (removeLiterals sql.data))) = false →
        validate_sql schemaTables sql = (true, "Valid")
        ∨ ∃ t, (t ∈ foundTables sql
            ∧ validate_sql schemaTables sql = (false, "Unknown table: " ++ t))) := by
  have hfind : dangerousKeywords.find? (fun kw2 => isSubOf kw2.data (sqlUpperOf sql)) = none := by
    rw [List.find?_eq_none]
    intro kw hkw
    simp [h2 kw hkw]
  constructor
  · intro hsemi
    simp [validate_sql, h1, hfind, hsemi]
  · intro hsemi
    cases htab : (foundTables sql).find? (isUnknownTable schemaTables) with
    | some t =>
      right
      refine ⟨t, List.mem_of_find?_eq_some htab, ?_⟩
      simp [validate_sql, h1, hfind, hsemi, htab]
    | none =>
      left
      simp [validate_sql, h1, hfind, hsemi, htab]

/-- Witness for C7: a stacked second statement (no blocked keyword involved)
is rejected as multiple statements. -/
theorem C7_residual_semicolon_rejected_witness :
    validate_sql ["calls"] "SELECT a FROM calls; SELECT b FROM calls"
      = (false, "Multiple statements not allowed") :=
  (C7_residual_semicolon_rejected ["calls"] "SELECT a FROM calls; SELECT b FROM calls"
    (by decide) (by decide)).1 (by decide)

/-- C8 counterexample: the unknown-table reason is capitalised
`"Unknown table: fake_table"`, not the claimed `"unknown table: fake_table"`. -/
theorem C8_counterexample :
    validate_sql ["calls", "employees"] "SELECT * FROM fake_table"
      = (false, "Unknown table: fake_table")
    ∧ (validate_sql ["calls", "employees"] "SELECT * FROM fake_table").2
        ≠ "unknown table: fake_table" := by
  decide

/-- C8 (amended): when the earlier checks pass, every table referenced after
a `FROM`/`JOIN` clause must exist case-insensitively among the schema's
table names — otherwise validation rejects with `"Unknown table: <t>"`
(capital `U`) naming an offending table; referencing only known tables
passes validation. -/
theorem C8_amended_unknown_table (schemaTables : List String) (sql : String)
    (h1 : "SELECT".data.isPrefixOf (sqlUpperOf sql) = true)
    (h2 : ∀ kw ∈ dangerousKeywords, isSubOf kw.data (sqlUpperOf sql) = false)
    (h3 : isSubOf ";".data (rstripSemiC (pyStripC (removeLiterals sql.data))) = false) :
    ((∀ t ∈ foundTables sql, (schemaTables.map lowerStr).contains (lowerStr t) = true) →
        validate_sql schemaTables sql = (true, "Valid"))
    ∧ ((∃ t ∈ foundTables sql, (schemaTables.map lowerStr).contains (lowerStr t) = false) →
        ∃ t ∈ foundTables sql, ((schemaTables.map lowerStr).contains (lowerStr t) = false
          ∧ validate_sql schemaTables sql = (false, "Unknown table: " ++ t))) := by
  have hfind : dangerousKeywords.find? (fun kw2 => isSubOf kw2.data (sqlUpperOf sql)) = none := by
    rw [List.find?_eq_none]
    intro kw hkw
    simp [h2 kw hkw]
  constructor
  · intro hall
    have htab : (foundTables sql).find? (isUnknownTable schemaTables) = none := by
      rw [List.find?_eq_none]
      intro t ht
      show ¬ ((!((schemaTables.map lowerStr).contains (lowerStr t))) = true)
      rw [hall t ht]
      decide
    simp [validate_sql, h1, hfind, h3, htab]
  · intro hex
    cases htab : (foundTables sql).find? (isUnknownTable schemaTables) with
    | some t =>
      refine ⟨t, List.mem_of_find?_eq_some htab, ?_, ?_⟩
      · have hp := List.find?_some htab
        have hp2 : (!((schemaTables.map lowerStr).contains (lowerStr t))) = true := hp
        cases hcc : (schemaTables.map lowerStr).contains (lowerStr t) with
        | false => rfl
        | true =>
          rw [hcc] at hp2
          exact absurd hp2 (by decide)
      · simp [validate_sql, h1, hfind, h3, htab]
    | none =>
      exfalso
      obtain ⟨t, ht, hc⟩ := hex
      rw [List.find?_eq_none] at htab
      have hbt : isUnknownTable schemaTables t = true := by
        show (!((schemaTables.map lowerStr).contains (lowerStr t))) = true
        rw [hc]
        decide
      exact htab t ht hbt

/-- Witness for the amended C8: spec scenario 2 with the code's actual
reason string. -/
theorem C8_amended_unknown_table_witness :
    ∃ t ∈ foundTables "SELECT * FROM fake_table",
      (((["calls", "employees"] : List String).map lowerStr).contains (lowerStr t) = false
        ∧ validate_sql ["calls", "employees"] "SELECT * FROM fake_table"
            = (false, "Unknown table: " ++ t)) :=
  (C8_amended_unknown_table ["calls", "employees"] "SELECT * FROM fake_table"
    (by decide) (by decide) (by decide)).2 ⟨"fake_table", by decide, by decide⟩

/-- Unfolding lemma for `queryGo`: a successful attempt returns at once. -/
theorem queryGo_ok {sqlStage : Nat → Except String (Option String)}
    {evalStage : String → Except String (Option String)}
    {q : String} {m attempt fuel : Nat} {ans : Option String}
    (h : attemptStep sqlStage evalStage q m attempt = Except.ok ans) :
    queryGo sqlStage evalStage q m attempt (fuel + 1) = (Except.ok ans, []) := by
  simp [queryGo, h]

/-- Unfolding lemma for `queryGo`: a failed attempt with attempts left waits
`(attempt + 1) * 2` and loops. -/
theorem queryGo_retry {sqlStage : Nat → Except String (Option String)}
    {evalStage : String → Except String (Option String)}
    {q : String} {m attempt fuel : Nat} {e : String}
    (h : attemptStep sqlStage evalStage q m attempt = Except.error e)
    (hlt : attempt < m) :
    queryGo sqlStage evalStage q m attempt (fuel + 1)
      = ((queryGo sqlStage evalStage q m (attempt + 1) fuel).1,
         (attempt + 1) * 2 :: (queryGo sqlStage evalStage q m (attempt + 1) fuel).2) := by
  simp [queryGo, h, hlt]

/-- Unfolding lemma for `queryGo`: a failed attempt with no attempts left
raises the exhaustion error carrying the last error text. -/
theorem queryGo_exhausted {sqlStage : Nat → Except String (Option String)}
    {evalStage : String → Except String (Option String)}
    {q : String} {m attempt fuel : Nat} {e : String}
    (h : attemptStep sqlStage evalStage q m attempt = Except.error e)
    (hge : ¬ attempt < m) :
    queryGo sqlStage evalStage q m attempt (fuel + 1)
      = (Except.error ("Query failed after " ++ toString (m + 1) ++ " attempts: " ++ e),
         []) := by
  simp [queryGo, h, hge]

/-- C4: with `"ERROR:"`-marked generation output on attempts 0 and 1 and a
clean output on attempt 2, `query` performs exactly two backoff waits of 2
and 4 time units and returns the evaluator's answer on the third attempt. -/
theorem C4_backoff_2_4_then_success
    (sqlStage : Nat → Except String (Option String))
    (evalStage : String → Except String (Option String))
    (q o0 o1 o2 : String) (a : Option String)
    (h0 : sqlStage 0 = Except.ok (some o0)) (hc0 : strContains o0 "ERROR:" = true)
    (h1 : sqlStage 1 = Except.ok (some o1)) (hc1 : strContains o1 "ERROR:" = true)
    (h2 : sqlStage 2 = Except.ok (some o2)) (hc2 : strContains o2 "ERROR:" = false)
    (he : evalStage (evalPrompt q o2) = Except.ok a) :
    mainQuery sqlStage evalStage q 2 = (Except.ok a, [2, 4]) := by
  have s0 : attemptStep sqlStage evalStage q 2 0 = Except.error ("SQL Error: " ++ o0) := by
    simp [attemptStep, h0, hc0]
  have s1 : attemptStep sqlStage evalStage q 2 1 = Except.error ("SQL Error: " ++ o1) := by
    simp [attemptStep, h1, hc1]
  have s2 : attemptStep sqlStage evalStage q 2 2 = Except.ok a := by
    simp [attemptStep, h2, hc2, he]
  have g2 : queryGo sqlStage evalStage q 2 2 1 = (Except.ok a, []) := queryGo_ok s2
  have g1 : queryGo sqlStage evalStage q 2 1 2 = (Except.ok a, [4]) := by
    rw [queryGo_retry s1 (by omega), g2]
  have g0 : queryGo sqlStage evalStage q 2 0 3 = (Except.ok a, [2, 4]) := by
    rw [queryGo_retry s0 (by omega), g1]
  exact g0

/-- Witness for C4: the concrete two-failures-then-success run waits 2 then
4 units and returns the evaluator's answer. -/
theorem C4_backoff_2_4_then_success_witness :
    mainQuery sqlTwoErrs evalFixed "How many calls?" 2
      = (Except.ok (some "There are 50005 calls."), [2, 4]) :=
  C4_backoff_2_4_then_success sqlTwoErrs evalFixed "How many calls?"
    "ERROR: bad column" "ERROR: bad column" "total 50005" (some "There are 50005 calls.")
    rfl (by decide) rfl (by decide) rfl (by decide) rfl

/-- C3 counterexample: when all 3 attempts produce `"ERROR:"`-marked output,
`query` does NOT fail — the final attempt's guard `attempt < max_retries` is
false, so the error text is handed to the evaluator and its answer is
returned as a success (after the two backoff waits). -/
theorem C3_counterexample :
    mainQuery sqlAlwaysErr evalExplains "How many calls?" 2
      = (Except.ok (some "The query kept failing; no data is available."), [2, 4]) := by
  decide

/-- C3 (amended): with `"ERROR:"`-marked generation output on attempts 0 and
1, `query` waits 2 and 4 time units; on attempt 2 an `"ERROR:"`-marked
output is no longer re-raised but passed to the evaluator, whose answer is
returned as success.  The `"Query failed after 3 attempts: <last error>"`
failure arises only when the final attempt itself raises an exception. -/
theorem C3_amended_last_error_goes_to_evaluator
    (sqlStage : Nat → Except String (Option String))
    (evalStage : String → Except String (Option String))
    (q o0 o1 : String)
    (h0 : sqlStage 0 = Except.ok (some o0)) (hc0 : strContains o0 "ERROR:" = true)
    (h1 : sqlStage 1 = Except.ok (some o1)) (hc1 : strContains o1 "ERROR:" = true) :
    (∀ o2 a, sqlStage 2 = Except.ok (some o2) → strContains o2 "ERROR:" = true →
        evalStage (evalPrompt q o2) = Except.ok a →
        mainQuery sqlStage evalStage q 2 = (Except.ok a, [2, 4]))
    ∧ (∀ e, sqlStage 2 = Except.error e →
        mainQuery sqlStage evalStage q 2
          = (Except.error ("Query failed after 3 attempts: " ++ e), [2, 4])) := by
  have s0 : attemptStep sqlStage evalStage q 2 0 = Except.error ("SQL Error: " ++ o0) := by
    simp [attemptStep, h0, hc0]
  have s1 : attemptStep sqlStage evalStage q 2 1 = Except.error ("SQL Error: " ++ o1) := by
    simp [attemptStep, h1, hc1]
  constructor
  · intro o2 a h2 hc2 he
    have s2 : attemptStep sqlStage evalStage q 2 2 = Except.ok a := by
      simp [attemptStep, h2, hc2, he]
    have g2 : queryGo sqlStage evalStage q 2 2 1 = (Except.ok a, []) := queryGo_ok s2
    have g1 : queryGo sqlStage evalStage q 2 1 2 = (Except.ok a, [4]) := by
      rw [queryGo_retry s1 (by omega), g2]
    have g0 : queryGo sqlStage evalStage q 2 0 3 = (Except.ok a, [2, 4]) := by
      rw [queryGo_retry s0 (by omega), g1]
    exact g0
  · intro e h2e
    have s2 : attemptStep sqlStage evalStage q 2 2 = Except.error e := by
      simp [attemptStep, h2e]
    have g2 : queryGo sqlStage evalStage q 2 2 1
        = (Except.error ("Query failed after " ++ toString (2 + 1 : Nat) ++
            " attempts: " ++ e), []) :=
      queryGo_exhausted s2 (by omega)
    have hstr : ("Query failed after " ++ toString (2 + 1 : Nat) ++ " attempts: " : String)
        = "Query failed after 3 attempts: " := by decide
    rw [hstr] at g2
    have g1 : queryGo sqlStage evalStage q 2 1 2
        = (Except.error ("Query failed after 3 attempts: " ++ e), [4]) := by
      rw [queryGo_retry s1 (by omega), g2]
    have g0 : queryGo sqlStage evalStage q 2 0 3
        = (Except.error ("Query failed after 3 attempts: " ++ e), [2, 4]) := by
      rw [queryGo_retry s0 (by omega), g1]
    exact g0

/-- Witness for the amended C3, exception path: a raise on the final attempt
yields the exhaustion error carrying the last error detail, after waits 2
and 4. -/
theorem C3_amended_last_error_goes_to_evaluator_witness :
    mainQuery sqlRaisesLast evalExplains "How many calls?" 2
      = (Except.error ("Query failed after 3 attempts: " ++ "connection lost"), [2, 4]) :=
  (C3_amended_last_error_goes_to_evaluator sqlRaisesLast evalExplains "How many calls?"
    "ERROR: no such table" "ERROR: no such table"
    rfl (by decide) rfl (by decide)).2 "connection lost" rfl

/-- C9 counterexample: on failure the endpoint raises
`HTTPException(500, str(e))`; the structured error carries neither the
resolved session identifier nor the question — only the cause text. -/
theorem C9_counterexample :
    appQuery pipeFails "fresh-uuid" ⟨"How many calls?", some "sess-1"⟩
      = Except.error ⟨500, "boom"⟩
    ∧ strContains "boom" "sess-1" = false
    ∧ strContains "boom" "How many calls?" = false := by
  decide

/-- C9 (amended): the resolved session identifier (the supplied one, or the
fresh one when none or an empty one is supplied) is echoed together with the
question in the successful response body; on failure the endpoint raises an
HTTP 500 error whose detail is only the cause text. -/
theorem C9_amended_session_echo_on_success_only
    (pipeline : String → String → Except String (Option String))
    (freshId : String) (req : QueryRequest) :
    (∀ ans, pipeline req.question (resolveSession freshId req.session_id) = Except.ok ans →
        appQuery pipeline freshId req
          = Except.ok ⟨req.question, ans, resolveSession freshId req.session_id, true⟩)
    ∧ (∀ e, pipeline req.question (resolveSession freshId req.session_id) = Except.error e →
        appQuery pipeline freshId req = Except.error ⟨500, e⟩) := by
  constructor
  · intro ans hok
    simp [appQuery, hok]
  · intro e herr
    simp [appQuery, herr]


/-- Witness for the amended C9: a supplied session identifier is echoed in
the successful response. -/
theorem C9_amended_session_echo_on_success_only_witness :
    appQuery pipeAnswers "fresh-uuid" ⟨"How many calls?", some "sess-1"⟩
      = Except.ok ⟨"How many calls?", some "42 calls",
          resolveSession "fresh-uuid" (some "sess-1"), true⟩ :=
  (C9_amended_session_echo_on_success_only pipeAnswers "fresh-uuid"
    ⟨"How many calls?", some "sess-1"⟩).1 (some "42 calls") rfl
